import Mathlib

/-!
Shallow embedding of scripts/fight_script.py, a sequential "battle" loop that
repeatedly lists workload controllers and pods of a Kubernetes namespace and
scales one controller down per round.

Every external kubectl invocation in the script goes through run_command, which
calls subprocess.run(check=True) and catches subprocess.CalledProcessError.
We model the outside world as oracle values of type
Except CalledProcessError String: Except.ok holds the raw stdout of a
successful call (run_command then strips it), Except.error models the
CalledProcessError raised for a non-zero exit status.  Functions of the script
become Lean functions of these oracle values; the while-True loop of battle
becomes a fuel-indexed recursion battleGo that additionally returns the trace
of selections, reduce invocations and requested replica counts, so that
"no scale call is issued" style properties are statable.
-/

structure CalledProcessError where
  returncode : Int
  stderr : String
deriving DecidableEq, Repr

/-- Embeds Python str.strip(): whitespace is dropped from both ends.  Written
structurally over the character list so that the kernel can evaluate it. -/
def pyStrip (s : String) : String :=
  String.mk (((s.data.dropWhile Char.isWhitespace).reverse.dropWhile
    Char.isWhitespace).reverse)

/-- Embeds run_command: on success it returns result.stdout.strip(); when
subprocess.run raises CalledProcessError it logs and returns None (here none). -/
def run_command (res : Except CalledProcessError String) : Option String :=
  match res with
  | Except.ok out => some (pyStrip out)
  | Except.error _ => none

/-- Python truthiness test for a string-or-None value: None and the empty
string are falsy. -/
def pyFalsyOpt : Option String → Bool
  | none => true
  | some s => s == ""

def pyTruthyOpt (o : Option String) : Bool := !(pyFalsyOpt o)

/-- Embeds the Python idiom x or d for a string-or-None x. -/
def pyOrS (o : Option String) (d : String) : String :=
  match o with
  | none => d
  | some s => if s == "" then d else s

/-- The single-quote character wrapping the jsonpath output of kubectl in the
script; written via its code point to keep the source free of quote literals. -/
def quoteChar : Char := Char.ofNat 39

def singleQuote : String := String.singleton quoteChar

/-- Embeds s.replace(c, "") for a single character c: every occurrence is
removed. -/
def removeChar (c : Char) (s : String) : String :=
  String.mk (s.data.filter (fun x => x != c))

/-- Splits a character list at every occurrence of c, keeping empty segments,
like Python s.split(c): the empty string yields the single segment []. -/
def splitOnChar (c : Char) : List Char → List (List Char)
  | [] => [[]]
  | x :: xs =>
    match splitOnChar c xs with
    | [] => if x = c then [[], []] else [[x]]
    | y :: ys => if x = c then [] :: y :: ys else (x :: y) :: ys

/-- Embeds Python s.split(newline-string). -/
def pySplitNl (s : String) : List String :=
  (splitOnChar (Char.ofNat 10) s.data).map String.mk

/-- Embeds output.replace(quote, "").split(newline) from get_controllers. -/
def stripQuotesSplit (out : String) : List String :=
  pySplitNl (removeChar quoteChar out)

/-- Oracle for the five kubectl calls issued by get_controllers. -/
structure GCOracle where
  nsCheck : Except CalledProcessError String
  deployments : Except CalledProcessError String
  statefulsets : Except CalledProcessError String
  replicasets : Except CalledProcessError String
  podsOut : Except CalledProcessError String

/-- Result of get_controllers.  The Python function returns the bare list []
when the namespace check fails and the tuple (controllers, pods) otherwise;
the caller battle unpacks it as a pair, so the bare list makes the unpacking
raise ValueError.  nsMissing embeds that bare-list return. -/
inductive GCResult where
  | nsMissing
  | ok (controllers : List String) (pods : List String)
deriving DecidableEq, Repr

/-- Embeds get_controllers: namespace check, the three controller listings
extended unfiltered into one list, and the pods listing filtered of empty
names. -/
def get_controllers (o : GCOracle) : GCResult :=
  if pyFalsyOpt (run_command o.nsCheck) then GCResult.nsMissing
  else
    let deployments := (run_command o.deployments).getD ""
    let statefulsets := (run_command o.statefulsets).getD ""
    let replicasets := (run_command o.replicasets).getD ""
    let controllers :=
      ([deployments, statefulsets, replicasets].filter (fun out => out != "")).flatMap
        stripQuotesSplit
    let podsOutput := (run_command o.podsOut).getD ""
    let pods := (stripQuotesSplit podsOutput).filter (fun pod => pod != "")
    GCResult.ok controllers pods

/-- A value stored in the Python metrics dict: None, a string, or a number
(the age in seconds, a float in Python, an integer here). -/
inductive MVal where
  | vnone
  | vstr (s : String)
  | vnum (n : Int)
deriving DecidableEq, Repr

/-- Python truthiness of a metrics value, as used by the reporting join. -/
def pyTruthyM : MVal → Bool
  | MVal.vnone => false
  | MVal.vstr s => s != ""
  | MVal.vnum n => n != 0

def optMVal : Option String → MVal
  | none => MVal.vnone
  | some s => MVal.vstr s

/-- Oracle for the kubectl calls of get_pod_metrics together with the ambient
time facts: parseTime abstracts datetime.strptime on the creation timestamp
(none models the ValueError it raises on a malformed string, which the
surrounding except swallows) and now abstracts datetime.utcnow(), so that the
age in seconds is now minus the parsed creation time. -/
structure PodProbe where
  cpuRes : Except CalledProcessError String
  memRes : Except CalledProcessError String
  restartsRes : Except CalledProcessError String
  creationRes : Except CalledProcessError String
  parseTime : String → Option Int
  now : Int

/-- The age entry of get_pod_metrics: added only when the creation-timestamp
probe is truthy and strptime parses its output; otherwise the dict stays as it
was (also when strptime raises, since the except returns the dict built so
far). -/
def ageEntry (p : PodProbe) : List (String × MVal) :=
  match run_command p.creationRes with
  | none => []
  | some creationTime =>
    if creationTime = "" then []
    else
      match p.parseTime creationTime with
      | none => []
      | some t => [("age", MVal.vnum (p.now - t))]

/-- Embeds get_pod_metrics: the cpu, memory and restarts entries are always
set, then the age entry is appended when it resolves.  Note the source line
metrics[restarts-key] = run_command(...) or "0": a failed restart probe is
replaced by the string "0", while cpu and memory keep the None result and the
age entry is only added when the creation timestamp resolves and parses. -/
def get_pod_metrics (p : PodProbe) : List (String × MVal) :=
  [("cpu", optMVal (run_command p.cpuRes)),
   ("memory", optMVal (run_command p.memRes)),
   ("restarts", MVal.vstr (pyOrS (run_command p.restartsRes) "0"))] ++ ageEntry p

/-- The metrics entries battle actually reports: the join in battle keeps only
pairs with a truthy value. -/
def reportedMetrics (metrics : List (String × MVal)) : List (String × MVal) :=
  metrics.filter (fun kv => pyTruthyM kv.2)

/-- The age metric fails to resolve: the creation-timestamp probe is falsy, or
strptime raises on its output. -/
def ageFails (p : PodProbe) : Prop :=
  match run_command p.creationRes with
  | none => True
  | some s => s = "" ∨ p.parseTime s = none

/-- Embeds random.choice(controllers): the random source is abstracted as the
index pick drawn for this call, reduced modulo the list length.  The script
never calls this on an empty list. -/
def randomChoice (l : List String) (pick : Nat) : String :=
  l.getD (pick % l.length) ""

/-- Embeds select_controller_for_reduction: the branch on the strategy is kept
from the source, where both arms execute the same random choice; the controller
kind is then determined by probing deployment and statefulset in order. -/
def select_controller_for_reduction (controllers : List String) (strategy : String)
    (pick : Nat) (depProbe stsProbe : String → Except CalledProcessError String) :
    Option String × Option String :=
  if controllers.isEmpty then (none, none)
  else
    let controller :=
      if strategy == "random" then randomChoice controllers pick
      else randomChoice controllers pick
    let ctype :=
      if pyTruthyOpt (run_command (depProbe controller)) then "deployment"
      else if pyTruthyOpt (run_command (stsProbe controller)) then "statefulset"
      else "replicaset"
    (some controller, some ctype)

/-- Embeds Python str.isdigit() on the ASCII strings kubectl emits: non-empty
and all decimal digits. -/
def pyIsDigit (s : String) : Bool :=
  !s.data.isEmpty && s.data.all (fun c => c.isDigit)

/-- Embeds Python int(s) on a string of decimal digits. -/
def pyToNat (s : String) : Nat :=
  s.data.foldl (fun acc c => acc * 10 + (c.toNat - 48)) 0

/-- Embeds reduce_controller.  The source guard is
not replicas or not replicas.isdigit() or int(replicas) <= 0: the empty string
already fails isdigit(), and a digit string parses to a non-negative value, so
the only parsed value failing int(replicas) <= 0 is 0.  Besides the success
flag the embedding returns the list of replica counts requested from kubectl
scale, so that "no scale command is issued" is statable. -/
def reduce_controller (name ns ctype : String)
    (replicasRaw : Except CalledProcessError String)
    (scaleRaw : Int → Except CalledProcessError String) : Bool × List Int :=
  if name = "" then (false, [])
  else
    match run_command replicasRaw with
    | none => (false, [])
    | some replicas =>
      if !pyIsDigit replicas then (false, [])
      else if pyToNat replicas = 0 then (false, [])
      else
        let newReplicas : Int := max 0 ((pyToNat replicas : Int) - 1)
        ((run_command (scaleRaw newReplicas)).isSome, [newReplicas])

/-- Terminal outcome of battle.  fuelOut is the model artifact for a loop that
has not terminated within the given fuel.  nsError embeds the ValueError raised
when battle unpacks the bare list that get_controllers returns for a missing
namespace; the script catches it at top level and logs it as an error, ending
the run. -/
inductive Outcome where
  | fuelOut
  | nsError
  | noControllers
  | noPods
  | winnerPod (p : String)
  | winnerController (c : String)
  | maxRoundsHit
deriving DecidableEq, Repr

/-- Observable result of a battle run: the terminal outcome plus the traces of
per-pod metric reports, controller selections, reduce_controller invocations
and replica counts requested from kubectl scale. -/
structure BattleResult where
  outcome : Outcome
  reports : List (String × List (String × MVal))
  selections : List (String × String)
  reduceCalls : Nat
  scaleReqs : List Int
deriving DecidableEq, Repr

/-- Oracle for one round of battle: the get_controllers calls, a metrics probe
per pod, the random index drawn this round, the kind probes of
select_controller_for_reduction, and the replica read and scale results of
reduce_controller, the last two indexed by controller name and kind (and the
scale result also by the requested count). -/
structure RoundData where
  gc : GCOracle
  podProbe : String → PodProbe
  pick : Nat
  depProbe : String → Except CalledProcessError String
  stsProbe : String → Except CalledProcessError String
  replicasRaw : String → String → Except CalledProcessError String
  scaleRaw : String → String → Int → Except CalledProcessError String

/-- Embeds the source line if max_rounds and round_num >= max_rounds: a Python
int is falsy exactly when it is 0, so max_rounds = None and max_rounds = 0 both
disable the bound. -/
def maxRoundsReached (maxRounds : Option Int) (roundNum : Nat) : Bool :=
  match maxRounds with
  | none => false
  | some m => (m != 0) && decide (m ≤ (roundNum : Int))

/-- The selection trace contributed by one round. -/
def roundSel (d : RoundData) (strategy : String) (controllers : List String) :
    List (String × String) :=
  match select_controller_for_reduction controllers strategy d.pick d.depProbe d.stsProbe with
  | (some t, ty) => [(t, ty.getD "")]
  | (none, _) => []

/-- The reduce_controller invocations of one round: the source only calls
reduce_controller under if target_controller, so a falsy (empty) selected name
suppresses the call.  Returns how many calls happened (0 or 1) and the replica
counts they requested. -/
def roundReduce (d : RoundData) (ns strategy : String) (controllers : List String) :
    Nat × List Int :=
  match select_controller_for_reduction controllers strategy d.pick d.depProbe d.stsProbe with
  | (some t, ty) =>
    if t = "" then (0, [])
    else
      (1, (reduce_controller t ns (ty.getD "")
        (d.replicasRaw t (ty.getD "")) (d.scaleRaw t (ty.getD ""))).2)
  | (none, _) => (0, [])

/-- Embeds the while-True loop of battle, indexed by fuel; roundNum starts at 1
as in the source.  The branch order follows the source exactly: namespace
failure (via get_controllers), empty controllers, empty pods, the
one-controller-and-at-most-one-pod winner check, then selection, reduction and
the max_rounds check.  The interval argument of battle only feeds time.sleep
and is not modelled. -/
def battleGo (o : Nat → RoundData) (ns strategy : String) (maxRounds : Option Int) :
    Nat → Nat → BattleResult
  | 0, _ =>
    { outcome := Outcome.fuelOut, reports := [], selections := [],
      reduceCalls := 0, scaleReqs := [] }
  | fuel + 1, roundNum =>
    match get_controllers (o roundNum).gc with
    | GCResult.nsMissing =>
      { outcome := Outcome.nsError, reports := [], selections := [],
        reduceCalls := 0, scaleReqs := [] }
    | GCResult.ok controllers pods =>
      if controllers.isEmpty then
        { outcome := Outcome.noControllers, reports := [], selections := [],
          reduceCalls := 0, scaleReqs := [] }
      else if pods.isEmpty then
        { outcome := Outcome.noPods, reports := [], selections := [],
          reduceCalls := 0, scaleReqs := [] }
      else if controllers.length = 1 ∧ pods.length ≤ 1 then
        { outcome :=
            if pods.isEmpty then Outcome.winnerController (controllers.headD "")
            else Outcome.winnerPod (pods.headD ""),
          reports := pods.map (fun p => (p, get_pod_metrics ((o roundNum).podProbe p))),
          selections := [], reduceCalls := 0, scaleReqs := [] }
      else if maxRoundsReached maxRounds roundNum then
        { outcome := Outcome.maxRoundsHit,
          reports := pods.map (fun p => (p, get_pod_metrics ((o roundNum).podProbe p))),
          selections := roundSel (o roundNum) strategy controllers,
          reduceCalls := (roundReduce (o roundNum) ns strategy controllers).1,
          scaleReqs := (roundReduce (o roundNum) ns strategy controllers).2 }
      else
        { outcome := (battleGo o ns strategy maxRounds fuel (roundNum + 1)).outcome,
          reports := pods.map (fun p => (p, get_pod_metrics ((o roundNum).podProbe p)))
            ++ (battleGo o ns strategy maxRounds fuel (roundNum + 1)).reports,
          selections := roundSel (o roundNum) strategy controllers
            ++ (battleGo o ns strategy maxRounds fuel (roundNum + 1)).selections,
          reduceCalls := (roundReduce (o roundNum) ns strategy controllers).1
            + (battleGo o ns strategy maxRounds fuel (roundNum + 1)).reduceCalls,
          scaleReqs := (roundReduce (o roundNum) ns strategy controllers).2
            ++ (battleGo o ns strategy maxRounds fuel (roundNum + 1)).scaleReqs }

/-- A concrete CalledProcessError used by the concrete oracles below. -/
def cpe : CalledProcessError := { returncode := 1, stderr := "kubectl failed" }

/-- A pod probe on which every external call fails. -/
def probeFail : PodProbe :=
  { cpuRes := Except.error cpe, memRes := Except.error cpe,
    restartsRes := Except.error cpe, creationRes := Except.error cpe,
    parseTime := fun _ => none, now := 0 }

/-- Builds a round oracle from a get_controllers oracle, with benign defaults
for the remaining probes: the kind probe reports a deployment, the replica
read returns 3 and scaling succeeds. -/
def mkRound (g : GCOracle) : RoundData :=
  { gc := g
    podProbe := fun _ => probeFail
    pick := 0
    depProbe := fun _ => Except.ok "deployment exists"
    stsProbe := fun _ => Except.error cpe
    replicasRaw := fun _ _ => Except.ok "3"
    scaleRaw := fun _ _ _ => Except.ok "scaled" }

/-- Oracle whose namespace check fails in every round. -/
def gcNsFail : GCOracle :=
  { nsCheck := Except.error cpe, deployments := Except.error cpe,
    statefulsets := Except.error cpe, replicasets := Except.error cpe,
    podsOut := Except.error cpe }

def oNsFail : Nat → RoundData := fun _ => mkRound gcNsFail

/-- Oracle with an existing namespace but no controllers and no pods. -/
def gcEmpty : GCOracle :=
  { nsCheck := Except.ok "loadbalancer-fight Active 5d",
    deployments := Except.error cpe, statefulsets := Except.error cpe,
    replicasets := Except.error cpe, podsOut := Except.error cpe }

def oEmpty : Nat → RoundData := fun _ => mkRound gcEmpty

/-- Oracle with exactly one controller and no pods. -/
def gcSolo : GCOracle :=
  { nsCheck := Except.ok "loadbalancer-fight Active 5d",
    deployments := Except.ok "app", statefulsets := Except.error cpe,
    replicasets := Except.error cpe, podsOut := Except.error cpe }

def oSolo : Nat → RoundData := fun _ => mkRound gcSolo

/-- Oracle with exactly one controller and exactly one pod. -/
def gcSoloWin : GCOracle :=
  { nsCheck := Except.ok "loadbalancer-fight Active 5d",
    deployments := Except.ok "app", statefulsets := Except.error cpe,
    replicasets := Except.error cpe, podsOut := Except.ok "pod-a" }

def oSoloWin : Nat → RoundData := fun _ => mkRound gcSoloWin

/-- Oracle with two controllers and two pods, so every round reduces. -/
def gcTwo : GCOracle :=
  { nsCheck := Except.ok "loadbalancer-fight Active 5d",
    deployments := Except.ok "web-a\nweb-b", statefulsets := Except.error cpe,
    replicasets := Except.error cpe, podsOut := Except.ok "pod-a\npod-b" }

def oTwo : Nat → RoundData := fun _ => mkRound gcTwo

/-- Oracle whose deployment listing carries the quote-wrapped jsonpath output
with a trailing newline, the shape the script un-quotes and splits. -/
def gcQuoted : GCOracle :=
  { nsCheck := Except.ok "loadbalancer-fight Active 5d",
    deployments := Except.ok (singleQuote ++ "web-a\nweb-b\n" ++ singleQuote),
    statefulsets := Except.error cpe, replicasets := Except.error cpe,
    podsOut := Except.ok (singleQuote ++ "pod-a\n" ++ singleQuote) }

/-- C9: an external call that fails (subprocess raises CalledProcessError) is
caught by run_command and yields the absent, falsy value None to the caller
instead of propagating the exception. -/
theorem run_command_failure_is_none (e : CalledProcessError) :
    run_command (Except.error e) = none ∧
      pyFalsyOpt (run_command (Except.error e)) = true :=
  ⟨rfl, rfl⟩

/-- C9 witness: the concrete failing call evaluates to the absent value. -/
theorem run_command_failure_is_none_witness :
    run_command (Except.error cpe) = none ∧
      pyFalsyOpt (run_command (Except.error cpe)) = true :=
  run_command_failure_is_none cpe

/-- C4: when the replica count read for a controller is absent, non-numeric, or
zero, reduce_controller issues no scale request and returns failure, leaving
the external state untouched by that call. -/
theorem reduce_bad_replicas_noop (name ns ctype : String)
    (replicasRaw : Except CalledProcessError String)
    (scaleRaw : Int → Except CalledProcessError String)
    (h : match run_command replicasRaw with
         | none => True
         | some s => pyIsDigit s = false ∨ pyToNat s = 0) :
    reduce_controller name ns ctype replicasRaw scaleRaw = (false, []) := by
  unfold reduce_controller
  by_cases hn : name = ""
  · simp [hn]
  · rw [if_neg hn]
    cases hrc : run_command replicasRaw with
    | none => rfl
    | some s =>
      rw [hrc] at h
      rcases h with h | h <;> simp [h]

/-- C4 witness: a failing replica read makes reduce_controller a no-op
returning failure. -/
theorem reduce_bad_replicas_noop_witness :
    reduce_controller "web" "loadbalancer-fight" "deployment" (Except.error cpe)
      (fun _ => Except.ok "scaled") = (false, []) :=
  reduce_bad_replicas_noop "web" "loadbalancer-fight" "deployment"
    (Except.error cpe) (fun _ => Except.ok "scaled") trivial

/-- C3 counterexample: when the replica count is read as the non-negative
integer 0, the reduce operation issues no scale request at all instead of
requesting max(0, 0-1) = 0 as the claim states. -/
theorem reduce_zero_read_counterexample :
    (reduce_controller "web" "loadbalancer-fight" "deployment" (Except.ok "0")
        (fun _ => Except.ok "scaled")).2 = [] ∧
      ([] : List Int) ≠ [max 0 ((0 : Int) - 1)] := by
  decide

/-- C3 amended: when the replica count read parses to r, the reduce operation
requests exactly max(0, r-1) if r is at least 1 and issues no request if r is
0; every replica count it requests is non-negative. -/
theorem reduce_requests_nonneg (name ns ctype replicasStr : String) (r : Nat)
    (replicasRaw : Except CalledProcessError String)
    (scaleRaw : Int → Except CalledProcessError String)
    (hname : name ≠ "")
    (hread : run_command replicasRaw = some replicasStr)
    (hdig : pyIsDigit replicasStr = true)
    (hr : pyToNat replicasStr = r) :
    (reduce_controller name ns ctype replicasRaw scaleRaw).2 =
      (if r = 0 then [] else [max 0 ((r : Int) - 1)]) ∧
    ∀ x ∈ (reduce_controller name ns ctype replicasRaw scaleRaw).2, 0 ≤ x := by
  unfold reduce_controller
  rw [if_neg hname]
  simp only [hread, hdig, hr, Bool.not_true, Bool.false_eq_true, if_false]
  by_cases h0 : r = 0
  · subst h0
    simp
  · rw [if_neg h0, if_neg h0]
    refine ⟨rfl, ?_⟩
    intro x hx
    simp only [List.mem_singleton] at hx
    subst hx
    exact le_max_left 0 _

/-- C3 witness: a replica count read as 3 yields the single request
max(0, 3-1) = 2, which is non-negative. -/
theorem reduce_requests_nonneg_witness :
    (reduce_controller "web" "loadbalancer-fight" "deployment" (Except.ok "3")
        (fun _ => Except.ok "scaled")).2 =
      (if 3 = 0 then [] else [max 0 ((3 : Int) - 1)]) ∧
    ∀ x ∈ (reduce_controller "web" "loadbalancer-fight" "deployment" (Except.ok "3")
        (fun _ => Except.ok "scaled")).2, 0 ≤ x :=
  reduce_requests_nonneg "web" "loadbalancer-fight" "deployment" "3" 3
    (Except.ok "3") (fun _ => Except.ok "scaled") (by decide) (by decide)
    (by decide) (by decide)

/-- C7: for a non-empty controllers list and any strategy of the accepted
enumeration, select_controller_for_reduction performs the identical uniform
random choice: with the same random pick it returns exactly what strategy
random returns. -/
theorem select_strategy_same_as_random (controllers : List String)
    (strategy : String) (pick : Nat)
    (depProbe stsProbe : String → Except CalledProcessError String)
    (hne : controllers ≠ [])
    (hs : strategy ∈ ["random", "youngest", "oldest", "resource-hog"]) :
    select_controller_for_reduction controllers strategy pick depProbe stsProbe =
      select_controller_for_reduction controllers "random" pick depProbe stsProbe := by
  simp [select_controller_for_reduction]

/-- C7 witness: strategy youngest selects the very same controller as strategy
random on a concrete two-controller list. -/
theorem select_strategy_same_as_random_witness :
    select_controller_for_reduction ["web-a", "web-b"] "youngest" 1
        (fun _ => Except.ok "deployment exists") (fun _ => Except.error cpe) =
      select_controller_for_reduction ["web-a", "web-b"] "random" 1
        (fun _ => Except.ok "deployment exists") (fun _ => Except.error cpe) :=
  select_strategy_same_as_random ["web-a", "web-b"] "youngest" 1
    (fun _ => Except.ok "deployment exists") (fun _ => Except.error cpe)
    (by decide) (by decide)

/-- C2: when the namespace-existence check is falsy (no output) at the start of
a round, that round ends the whole run with the error outcome (get_controllers
returns its bare list, whose unpacking raises the ValueError that the top-level
handler logs), and no selection, no reduce invocation and no scale request
happens in that round or any later one. -/
theorem battle_ns_missing_aborts (o : Nat → RoundData) (ns strategy : String)
    (maxRounds : Option Int) (fuel roundNum : Nat)
    (h : pyFalsyOpt (run_command (o roundNum).gc.nsCheck) = true) :
    battleGo o ns strategy maxRounds (fuel + 1) roundNum =
      { outcome := Outcome.nsError, reports := [], selections := [],
        reduceCalls := 0, scaleReqs := [] } := by
  have hgc : get_controllers (o roundNum).gc = GCResult.nsMissing := by
    unfold get_controllers
    rw [h]
    rfl
  simp [battleGo, hgc]

/-- C2 witness: with every kubectl call failing, the run ends at once in the
error outcome with an empty scale-request trace. -/
theorem battle_ns_missing_aborts_witness :
    battleGo oNsFail "loadbalancer-fight" "random" none 3 1 =
      { outcome := Outcome.nsError, reports := [], selections := [],
        reduceCalls := 0, scaleReqs := [] } :=
  battle_ns_missing_aborts oNsFail "loadbalancer-fight" "random" none 2 1 (by decide)

/-- C5: a round whose enumerated controllers list or pods list is empty ends
the loop within that round, before any selection or reduction: the selection
trace, the reduce-invocation count and the scale-request trace are all empty. -/
theorem battle_empty_list_terminates (o : Nat → RoundData) (ns strategy : String)
    (maxRounds : Option Int) (fuel roundNum : Nat) (cs ps : List String)
    (hgc : get_controllers (o roundNum).gc = GCResult.ok cs ps)
    (h : cs = [] ∨ ps = []) :
    battleGo o ns strategy maxRounds (fuel + 1) roundNum =
      { outcome := if cs.isEmpty then Outcome.noControllers else Outcome.noPods,
        reports := [], selections := [], reduceCalls := 0, scaleReqs := [] } := by
  rcases h with h | h
  · subst h
    simp [battleGo, hgc]
  · subst h
    cases cs with
    | nil => simp [battleGo, hgc]
    | cons c cs2 => simp [battleGo, hgc]

/-- C5 witness: a namespace with no controllers and no pods ends the loop in
round one with no selection and no reduction. -/
theorem battle_empty_list_terminates_witness :
    battleGo oEmpty "loadbalancer-fight" "random" none 1 1 =
      { outcome := if ([] : List String).isEmpty then Outcome.noControllers
          else Outcome.noPods,
        reports := [], selections := [], reduceCalls := 0, scaleReqs := [] } :=
  battle_empty_list_terminates oEmpty "loadbalancer-fight" "random" none 0 1 [] []
    (by decide) (Or.inl rfl)

/-- C1 counterexample: a round that observes exactly one controller and zero
pods terminates with the no-pods outcome, not by declaring the sole controller
the winner as the claim states: the empty-pods break precedes the winner check,
so the controller-winner branch never runs. -/
theorem battle_solo_no_pods_counterexample :
    (battleGo oSolo "loadbalancer-fight" "random" none 1 1).outcome =
      Outcome.noPods ∧
    (battleGo oSolo "loadbalancer-fight" "random" none 1 1).outcome ≠
      Outcome.winnerController "app" := by
  decide

/-- C1 amended: a round observing exactly one controller and at most one pod
terminates the loop in that round with no reduction; with exactly one pod it
declares that pod the winner, while with zero pods it ends with the no-pods
message and no winner is declared. -/
theorem battle_solo_round_outcome (o : Nat → RoundData) (ns strategy : String)
    (maxRounds : Option Int) (fuel roundNum : Nat) (cs ps : List String)
    (hgc : get_controllers (o roundNum).gc = GCResult.ok cs ps)
    (h1 : cs.length = 1) (h2 : ps.length ≤ 1) :
    (battleGo o ns strategy maxRounds (fuel + 1) roundNum).outcome =
      (if ps.isEmpty then Outcome.noPods else Outcome.winnerPod (ps.headD "")) ∧
    (battleGo o ns strategy maxRounds (fuel + 1) roundNum).reduceCalls = 0 ∧
    (battleGo o ns strategy maxRounds (fuel + 1) roundNum).scaleReqs = [] := by
  obtain ⟨c, rfl⟩ := List.length_eq_one.mp h1
  cases ps with
  | nil => simp [battleGo, hgc]
  | cons p tail =>
    cases tail with
    | nil => simp [battleGo, hgc]
    | cons q tail2 => simp at h2

/-- C1 witness: one controller and one pod yield that pod as the winner within
the round. -/
theorem battle_solo_round_outcome_witness :
    (battleGo oSoloWin "loadbalancer-fight" "random" none 1 1).outcome =
      (if (["pod-a"] : List String).isEmpty then Outcome.noPods
       else Outcome.winnerPod ((["pod-a"] : List String).headD "")) ∧
    (battleGo oSoloWin "loadbalancer-fight" "random" none 1 1).reduceCalls = 0 ∧
    (battleGo oSoloWin "loadbalancer-fight" "random" none 1 1).scaleReqs = [] :=
  battle_solo_round_outcome oSoloWin "loadbalancer-fight" "random" none 0 1
    ["app"] ["pod-a"] (by decide) rfl (by decide)

/-- C10: get_controllers filters empty names out of the pods list but not out
of the controllers list: no pods list it returns contains the empty string,
while a concrete quote-wrapped listing with a trailing newline leaves an empty
name in the returned controllers list. -/
theorem controllers_keep_empty_pods_filtered :
    (∀ o cs ps, get_controllers o = GCResult.ok cs ps → "" ∉ ps) ∧
    (get_controllers gcQuoted = GCResult.ok ["web-a", "web-b", ""] ["pod-a"] ∧
      "" ∈ (["web-a", "web-b", ""] : List String) ∧
      "" ∉ (["pod-a"] : List String)) := by
  constructor
  · intro o cs ps h
    unfold get_controllers at h
    split at h
    · simp at h
    · simp only [GCResult.ok.injEq] at h
      obtain ⟨h1, h2⟩ := h
      subst h2
      intro hmem
      rw [List.mem_filter] at hmem
      simp at hmem
  · exact ⟨by decide, by decide, by decide⟩

/-- C10 witness: the pods list returned for the concrete quoted listing has no
empty entry. -/
theorem controllers_keep_empty_pods_filtered_witness :
    "" ∉ (["pod-a"] : List String) :=
  controllers_keep_empty_pods_filtered.1 gcQuoted ["web-a", "web-b", ""]
    ["pod-a"] (by decide)

/-- Helper: a key whose every value in the metrics dict is falsy does not
survive the truthiness filter of the report join. -/
theorem key_not_in_reported (l : List (String × MVal)) (k : String)
    (h : ∀ v, (k, v) ∈ l → pyTruthyM v = false) :
    k ∉ (reportedMetrics l).map Prod.fst := by
  intro hmem
  rw [List.mem_map] at hmem
  obtain ⟨kv, hkv, hfst⟩ := hmem
  rw [reportedMetrics, List.mem_filter] at hkv
  obtain ⟨hin, htruthy⟩ := hkv
  obtain ⟨k2, v⟩ := kv
  simp only at hfst
  subst hfst
  rw [h v hin] at htruthy
  exact Bool.false_ne_true htruthy

/-- Helper: any entry of the age segment is an age key with a numeric value. -/
theorem ageEntry_mem (p : PodProbe) (x : String × MVal) (h : x ∈ ageEntry p) :
    ∃ t, x = ("age", MVal.vnum t) := by
  unfold ageEntry at h
  cases hcr : run_command p.creationRes with
  | none => simp [hcr] at h
  | some s =>
    by_cases he : s = ""
    · simp [hcr, he] at h
    · cases hp : p.parseTime s with
      | none => simp [hcr, he, hp] at h
      | some t =>
        simp [hcr, he, hp] at h
        exact ⟨p.now - t, by rw [h]⟩

/-- Helper: when the age metric fails to resolve, no age entry is appended. -/
theorem ageEntry_eq_nil_of_ageFails (p : PodProbe) (h : ageFails p) :
    ageEntry p = [] := by
  unfold ageEntry
  unfold ageFails at h
  cases hcr : run_command p.creationRes with
  | none => simp
  | some s =>
    rw [hcr] at h
    rcases h with h | h
    · simp [h]
    · by_cases he : s = ""
      · simp [he]
      · simp [he, h]

/-- Helper: every entry of the metrics dict is one of the four known keys with
its value of the known shape. -/
theorem mem_get_pod_metrics (p : PodProbe) (k : String) (v : MVal)
    (h : (k, v) ∈ get_pod_metrics p) :
    (k = "cpu" ∧ v = optMVal (run_command p.cpuRes)) ∨
    (k = "memory" ∧ v = optMVal (run_command p.memRes)) ∨
    (k = "restarts" ∧ v = MVal.vstr (pyOrS (run_command p.restartsRes) "0")) ∨
    (k = "age" ∧ ∃ t, v = MVal.vnum t) := by
  unfold get_pod_metrics at h
  rw [List.mem_append] at h
  rcases h with h | h
  · simp only [List.mem_cons, List.not_mem_nil, or_false, Prod.mk.injEq] at h
    tauto
  · obtain ⟨t, ht⟩ := ageEntry_mem p (k, v) h
    rw [Prod.mk.injEq] at ht
    exact Or.inr (Or.inr (Or.inr ⟨ht.1, t, ht.2⟩))

/-- Helper: when the age metric fails to resolve, the metrics dict is exactly
the three base entries and has no age key. -/
theorem get_pod_metrics_of_ageFails (p : PodProbe) (h : ageFails p) :
    get_pod_metrics p =
      [("cpu", optMVal (run_command p.cpuRes)),
       ("memory", optMVal (run_command p.memRes)),
       ("restarts", MVal.vstr (pyOrS (run_command p.restartsRes) "0"))] := by
  unfold get_pod_metrics
  rw [ageEntry_eq_nil_of_ageFails p h, List.append_nil]

/-- Helper: the restarts entry, with its defaulted value, is always present in
the metrics dict. -/
theorem restarts_mem_get_pod_metrics (p : PodProbe) :
    ("restarts", MVal.vstr (pyOrS (run_command p.restartsRes) "0")) ∈
      get_pod_metrics p := by
  unfold get_pod_metrics
  simp

/-- C8 amended: a CPU or memory metric that fails to resolve is stored as the
absent value and omitted from the reported metrics, and a failed creation
timestamp omits the age entry entirely; but a restart count that fails to
resolve is not omitted: it is replaced by the default value 0 and appears in
the reported metrics. -/
theorem metrics_failed_probe_handling (p : PodProbe) :
    (run_command p.cpuRes = none →
      "cpu" ∉ (reportedMetrics (get_pod_metrics p)).map Prod.fst) ∧
    (run_command p.memRes = none →
      "memory" ∉ (reportedMetrics (get_pod_metrics p)).map Prod.fst) ∧
    (ageFails p → "age" ∉ (get_pod_metrics p).map Prod.fst) ∧
    (run_command p.restartsRes = none →
      ("restarts", MVal.vstr "0") ∈ reportedMetrics (get_pod_metrics p)) := by
  refine ⟨?_, ?_, ?_, ?_⟩
  · intro hc
    apply key_not_in_reported
    intro v hv
    rcases mem_get_pod_metrics p "cpu" v hv with ⟨_, hveq⟩ | ⟨hk, _⟩ | ⟨hk, _⟩ | ⟨hk, _⟩
    · rw [hveq, hc]
      rfl
    · exact absurd hk (by decide)
    · exact absurd hk (by decide)
    · exact absurd hk (by decide)
  · intro hm
    apply key_not_in_reported
    intro v hv
    rcases mem_get_pod_metrics p "memory" v hv with ⟨hk, _⟩ | ⟨_, hveq⟩ | ⟨hk, _⟩ | ⟨hk, _⟩
    · exact absurd hk (by decide)
    · rw [hveq, hm]
      rfl
    · exact absurd hk (by decide)
    · exact absurd hk (by decide)
  · intro ha
    rw [get_pod_metrics_of_ageFails p ha]
    simp only [List.map_cons, List.map_nil]
    decide
  · intro hr
    have hmem := restarts_mem_get_pod_metrics p
    rw [hr] at hmem
    rw [reportedMetrics, List.mem_filter]
    exact ⟨hmem, rfl⟩

/-- C8 counterexample: with the restart-count probe failing, the restart metric
is not omitted from the reported metrics: it appears with the default value 0. -/
theorem metrics_restarts_default_counterexample :
    run_command probeFail.restartsRes = none ∧
    ("restarts", MVal.vstr "0") ∈ reportedMetrics (get_pod_metrics probeFail) ∧
    reportedMetrics (get_pod_metrics probeFail) = [("restarts", MVal.vstr "0")] := by
  decide

/-- C8 witness: on the all-failing probe, cpu, memory and age are omitted from
the reported metrics while the restart count is reported as the default 0. -/
theorem metrics_failed_probe_handling_witness :
    ("cpu" ∉ (reportedMetrics (get_pod_metrics probeFail)).map Prod.fst) ∧
    ("memory" ∉ (reportedMetrics (get_pod_metrics probeFail)).map Prod.fst) ∧
    ("age" ∉ (get_pod_metrics probeFail).map Prod.fst) ∧
    ("restarts", MVal.vstr "0") ∈ reportedMetrics (get_pod_metrics probeFail) :=
  ⟨(metrics_failed_probe_handling probeFail).1 rfl,
   (metrics_failed_probe_handling probeFail).2.1 rfl,
   (metrics_failed_probe_handling probeFail).2.2.1 trivial,
   (metrics_failed_probe_handling probeFail).2.2.2 rfl⟩

/-- Helper: each round invokes reduce_controller at most once. -/
theorem roundReduce_fst_le_one (d : RoundData) (ns strategy : String)
    (cs : List String) : (roundReduce d ns strategy cs).1 ≤ 1 := by
  unfold roundReduce
  rcases select_controller_for_reduction cs strategy d.pick d.depProbe d.stsProbe
    with ⟨_ | t, ty⟩
  · simp
  · by_cases ht : t = "" <;> simp [ht]

/-- Helper: when a positive bound has not been reached, the round number is
still below it. -/
theorem lt_of_maxRoundsReached_eq_false (m : Int) (n : Nat) (hm : 1 ≤ m)
    (h : maxRoundsReached (some m) n = false) : (n : Int) < m := by
  by_contra hcon
  push_neg at hcon
  have ht : maxRoundsReached (some m) n = true := by
    show ((m != 0) && decide (m ≤ (n : Int))) = true
    have h1 : (m != 0) = true := by
      simp only [bne_iff_ne, ne_eq]
      omega
    have h2 : decide (m ≤ (n : Int)) = true := by
      simp only [decide_eq_true_eq]
      exact hcon
    rw [h1, h2]
    rfl
  rw [ht] at h
  exact absurd h (by simp)

/-- Helper: from round n on, a run bounded by max_rounds = bound performs at
most max 1 (bound + 1 - n) reduce invocations. -/
theorem battleGo_reduceCalls_le (o : Nat → RoundData) (ns strategy : String)
    (bound : Int) (hb : 1 ≤ bound) :
    ∀ fuel n : Nat,
      ((battleGo o ns strategy (some bound) fuel n).reduceCalls : Int) ≤
        max 1 (bound + 1 - (n : Int)) := by
  intro fuel
  induction fuel with
  | zero =>
    intro n
    simp [battleGo]
  | succ fuel ih =>
    intro n
    rw [battleGo]
    split
    · simp
    · rename_i controllers pods hgceq
      split
      · simp
      · split
        · simp
        · split
          · simp
          · split
            · have h1 := roundReduce_fst_le_one (o n) ns strategy controllers
              have h2 : ((roundReduce (o n) ns strategy controllers).1 : Int) ≤ 1 := by
                exact_mod_cast h1
              simpa using le_trans h2 (le_max_left 1 (bound + 1 - (n : Int)))
            · rename_i hreach
              simp only [Bool.not_eq_true] at hreach
              have hlt : (n : Int) < bound :=
                lt_of_maxRoundsReached_eq_false bound n hb hreach
              have hrec := ih (n + 1)
              push_cast at hrec
              rw [max_eq_right
                (by omega : (1 : Int) ≤ bound + 1 - ((n : Int) + 1))] at hrec
              have h1 := roundReduce_fst_le_one (o n) ns strategy controllers
              have hmax : (1 : Int) ⊔ (bound + 1 - (n : Int)) = bound + 1 - (n : Int) :=
                max_eq_right (by omega)
              rw [hmax]
              push_cast
              omega

/-- C6 counterexample: with max_rounds = 0 the bound check is inert (the Python
int 0 is falsy), so the loop keeps invoking the reduce operation: within two
rounds it already performs 2 reduction attempts, exceeding the claimed bound
of at most 0. -/
theorem battle_max_rounds_zero_counterexample :
    (battleGo oTwo "loadbalancer-fight" "random" (some 0) 2 1).reduceCalls = 2 ∧
    ¬((battleGo oTwo "loadbalancer-fight" "random" (some 0) 2 1).reduceCalls ≤ 0) := by
  decide

/-- C6 amended: for every max_rounds value N with N ≥ 1, the battle loop
invokes the reduce operation at most N times before terminating, whatever the
fuel; the values 0 and None disable the bound instead. -/
theorem battle_max_rounds_attempts (o : Nat → RoundData) (ns strategy : String)
    (bound : Int) (hb : 1 ≤ bound) (fuel : Nat) :
    ((battleGo o ns strategy (some bound) fuel 1).reduceCalls : Int) ≤ bound := by
  have h := battleGo_reduceCalls_le o ns strategy bound hb fuel 1
  have hmax : max 1 (bound + 1 - ((1 : Nat) : Int)) = bound := by
    rw [max_eq_right] <;> push_cast <;> omega
  rw [hmax] at h
  exact h

/-- C6 witness: with max_rounds = 1 the two-controller oracle performs at most
one reduction attempt. -/
theorem battle_max_rounds_attempts_witness :
    ((battleGo oTwo "loadbalancer-fight" "random" (some 1) 3 1).reduceCalls : Int) ≤ 1 :=
  battle_max_rounds_attempts oTwo "loadbalancer-fight" "random" 1 (by decide) 3
